import Mathlib

/-!
# Speech SDK skeleton: `IntentRecognizer` and the C-ABI handle bridge

Embedding of `source/public/cxx_api/speechapi_cxx_todo_intent.h` (the
`IntentRecognizer` class, whose constructor and six overrides are all
`throw nullptr;`) and of the handle registry that stands behind
`source/public/c_api/speechapi_c.h`.

A C++ member function is a computation over the object it is called on that
either returns a value or propagates a thrown value; the object after the call
is always part of the outcome, so "a throw that changes nothing" is visible.
-/

namespace Intent

/-! ## Data model -/

/-- Modelled from the spec: the error kinds of the SDK (section 7); the header
`speechapi_c_common.h` that would declare them is not among the sources. -/
inductive ErrorKind where
  | InvalidState
  | InvalidHandle
  | Busy
  | NotFound
  | InternalError
  deriving DecidableEq

/-- What a C++ `throw` expression can propagate out of a member function: the
literal `nullptr` thrown by the source, or an SDK error of some kind. -/
inductive Thrown where
  | nullptr
  | failure (kind : ErrorKind)
  deriving DecidableEq

/-- Modelled from the spec: the lifecycle states of `AsyncRecognizer`
(section 4.2); the header `speechapi_cxx_recognizer.h` is not among the
sources. -/
inductive LifecycleState where
  | Disabled
  | Idle
  | Recognizing
  | ContinuousActive
  | Stopping
  deriving DecidableEq

/-- Modelled from the spec: a parameter value is a string, a number or a
boolean (section 3); the type `RecognizerParameters` is declared in a header
that is not among the sources. -/
inductive ParameterValue where
  | str (s : String)
  | num (n : Int)
  | bool (b : Bool)
  deriving DecidableEq

/-- Modelled from the spec: `RecognizerParameters` is a mapping from parameter
names to values (section 3). -/
structure RecognizerParameters where
  entries : List (String × ParameterValue)
  deriving DecidableEq

/-- The default-constructed `RecognizerParameters` member. -/
def RecognizerParameters.default : RecognizerParameters := ⟨[]⟩

/-- Modelled from the spec: the base subobject `AsyncRecognizer<int, int>`
carries the lifecycle state; the enabled flag of section 3 is the state being
other than `Disabled`. -/
structure AsyncRecognizer where
  state : LifecycleState
  deriving DecidableEq

/-- The class `IntentRecognizer : virtual public AsyncRecognizer<int, int>` with
its one private member `m_parameters`. -/
structure IntentRecognizer where
  base : AsyncRecognizer
  m_parameters : RecognizerParameters
  deriving DecidableEq

/-- The lifecycle state of a recognizer object. -/
def IntentRecognizer.state (r : IntentRecognizer) : LifecycleState := r.base.state

/-- A `std::future<T>`: it eventually holds a value or an exception. -/
structure Future (α : Type) where
  outcome : Except Thrown α

/-- A `std::shared_ptr<int>`: possibly null. -/
abbrev SharedPtrInt := Option Int

/-! ## Member functions -/

/-- A member function of `IntentRecognizer`: it runs on the object, may change
it, and either returns or throws. -/
abbrev Method (α : Type) := ExceptT Thrown (StateM IntentRecognizer) α

/-- Calling a member function on an object: the returned value or the thrown
value, together with the object after the call. -/
def invoke {α : Type} (m : Method α) (r : IntentRecognizer) :
    Except Thrown α × IntentRecognizer :=
  (StateT.run (ExceptT.run m) r).run

/-- Source: `bool IsEnabled() override { throw nullptr; }`. -/
def IntentRecognizer.IsEnabled : Method Bool :=
  throw Thrown.nullptr

/-- Source: `void Enable() override { throw nullptr; }`. -/
def IntentRecognizer.Enable : Method Unit :=
  throw Thrown.nullptr

/-- Source: `void Disable() override { throw nullptr; }`. -/
def IntentRecognizer.Disable : Method Unit :=
  throw Thrown.nullptr

/-- Source:
`std::future<std::shared_ptr<int>> RecognizeAsync() override { throw nullptr; };`. -/
def IntentRecognizer.RecognizeAsync : Method (Future SharedPtrInt) :=
  throw Thrown.nullptr

/-- Source:
`std::future<void> StartContinuousRecognitionAsync() override { throw nullptr; };`. -/
def IntentRecognizer.StartContinuousRecognitionAsync : Method (Future Unit) :=
  throw Thrown.nullptr

/-- Source:
`std::future<void> StopContinuousRecognitionAsync() override { throw nullptr; };`. -/
def IntentRecognizer.StopContinuousRecognitionAsync : Method (Future Unit) :=
  throw Thrown.nullptr

/-- What a constructor can read through a reference to a member of the object
under construction: the member, or nothing while the member is not yet
constructed. -/
abbrev MemberRef (α : Type) := Option α

/-- Source: `IntentRecognizer() : AsyncRecognizer(m_parameters) { throw nullptr; };`.
The base constructor is declared in a header that is not among the sources, so
it is a parameter: it yields the base subobject or throws. C++ initialises the
base before the members, so the base constructor receives a reference to
`m_parameters` while that member is not yet constructed; the member is
default-constructed next, and then the body throws. -/
def IntentRecognizer.construct
    (baseCtor : MemberRef RecognizerParameters → Except Thrown AsyncRecognizer) :
    Except Thrown IntentRecognizer := do
  let base ← baseCtor none
  let m_parameters := RecognizerParameters.default
  let _self : IntentRecognizer := { base := base, m_parameters := m_parameters }
  throw Thrown.nullptr

/-! ## Call sequences -/

/-- The six operations a caller can invoke on a recognizer. -/
inductive Call where
  | IsEnabled
  | Enable
  | Disable
  | RecognizeAsync
  | StartContinuousRecognitionAsync
  | StopContinuousRecognitionAsync
  deriving DecidableEq

/-- What a call hands back when it returns. -/
inductive Returned where
  | bool (b : Bool)
  | void
  | result (f : Future SharedPtrInt)
  | session (f : Future Unit)

/-- Dispatch of a call to the member function of the same name. -/
def perform : Call → Method Returned
  | .IsEnabled => do
      let b ← IntentRecognizer.IsEnabled
      pure (Returned.bool b)
  | .Enable => do
      IntentRecognizer.Enable
      pure Returned.void
  | .Disable => do
      IntentRecognizer.Disable
      pure Returned.void
  | .RecognizeAsync => do
      let f ← IntentRecognizer.RecognizeAsync
      pure (Returned.result f)
  | .StartContinuousRecognitionAsync => do
      let f ← IntentRecognizer.StartContinuousRecognitionAsync
      pure (Returned.session f)
  | .StopContinuousRecognitionAsync => do
      let f ← IntentRecognizer.StopContinuousRecognitionAsync
      pure (Returned.session f)

/-- Whether a call returned (did not throw). -/
def returned {α : Type} : Except Thrown α → Bool
  | .ok _ => true
  | .error _ => false

/-- The value a call threw, if it threw. -/
def thrownValue {α : Type} : Except Thrown α → Option Thrown
  | .ok _ => none
  | .error e => some e

/-- A caller that makes the calls one after another on the same object,
catching whatever a call throws and going on: the thrown value of each call
(`none` when it returned) and the object at the end. -/
def runCalls : List Call → IntentRecognizer → List (Option Thrown) × IntentRecognizer
  | [], r => ([], r)
  | c :: cs, r =>
      let step := invoke (perform c) r
      let rest := runCalls cs step.2
      (thrownValue step.1 :: rest.1, rest.2)

/-- The object a caller holds after constructing a recognizer and making the
calls on it; `none` when construction threw and there is no object. -/
def afterConstruction
    (baseCtor : MemberRef RecognizerParameters → Except Thrown AsyncRecognizer)
    (calls : List Call) : Option IntentRecognizer :=
  match IntentRecognizer.construct baseCtor with
  | .ok r => some (runCalls calls r).2
  | .error _ => none

/-- A recognizer object in the given lifecycle state with no parameters set. -/
def recognizerIn (s : LifecycleState) : IntentRecognizer :=
  { base := { state := s }, m_parameters := RecognizerParameters.default }

/-- A base constructor that succeeds and leaves the recognizer `Disabled`. -/
def baseCtorDisabled : MemberRef RecognizerParameters → Except Thrown AsyncRecognizer :=
  fun _ => .ok { state := LifecycleState.Disabled }

/-- The calls of the single-shot scenario, after construction. -/
def singleShotScenario : List Call :=
  [Call.Enable, Call.RecognizeAsync, Call.Disable, Call.RecognizeAsync]

/-- The calls of the continuous scenario. -/
def continuousScenario : List Call :=
  [Call.Enable, Call.StartContinuousRecognitionAsync, Call.Disable,
   Call.StopContinuousRecognitionAsync, Call.Disable]

end Intent

/-! ## Handle registry of the C-ABI bridge -/

namespace Bridge

/-- Modelled from the spec: an opaque handle is a monotonically issued integer
token (sections 3 and 9); `speechapi_c.h` only includes the four headers
`speechapi_c_common.h`, `speechapi_c_recognizer_factory.h`,
`speechapi_c_recognizer.h` and `speechapi_c_result.h`, none of which is among
the sources. -/
abbrev Handle := Nat

/-- Modelled from the spec: the status codes of the C ABI (section 6); their
declaration is in the missing `speechapi_c_common.h`. -/
inductive Status where
  | OK
  | InvalidHandle
  | Busy
  | NotFound
  | InternalError
  deriving DecidableEq

/-- Modelled from the spec: the objects the registry owns are recognizers and
results (section 2); a result of `AsyncRecognizer<int, int>` is an `int`. The
declarations are in the missing `speechapi_c_recognizer.h` and
`speechapi_c_result.h`. -/
inductive RegisteredObject where
  | recognizer (r : Intent.IntentRecognizer)
  | result (value : Int)
  deriving DecidableEq

/-- Modelled from the spec: a recognizer that is not in `Idle` or `Disabled`
is busy (section 4.4); a result never is. The bridge implementation is not
among the sources. -/
def RegisteredObject.busy : RegisteredObject → Bool
  | .recognizer r =>
      match r.state with
      | .Idle => false
      | .Disabled => false
      | .Recognizing => true
      | .ContinuousActive => true
      | .Stopping => true
  | .result _ => false

/-- Modelled from the spec: an arena-style registry mapping monotonically
issued integer tokens to ownership slots (section 9): the next token to issue
and the live slots. The bridge implementation is not among the sources. -/
structure Registry where
  next : Handle
  slots : List (Handle × RegisteredObject)
  deriving DecidableEq

/-- Modelled from the spec: the registry before any handle was issued; the
bridge implementation is not among the sources. -/
def Registry.initial : Registry := { next := 0, slots := [] }

/-- Modelled from the spec: the slot a handle names, if any ("a handle always
resolves to exactly zero or one live object", section 3); the bridge
implementation is not among the sources. -/
def Registry.slot (reg : Registry) (h : Handle) : Option RegisteredObject :=
  match reg.slots.find? (fun e => e.1 == h) with
  | some e => some e.2
  | none => none

/-- Modelled from the spec: the outcome of `resolve`, an object or the
distinguished not-found outcome (section 4.4); the bridge implementation is
not among the sources. -/
inductive Resolution where
  | object (x : RegisteredObject)
  | NotFound
  deriving DecidableEq

/-- Modelled from the spec: `register(object) -> handle` creates a fresh,
previously-unused handle and records exclusive ownership (section 4.4); the
bridge implementation is not among the sources. -/
def register (x : RegisteredObject) (reg : Registry) : Handle × Registry :=
  (reg.next, { next := reg.next + 1, slots := (reg.next, x) :: reg.slots })

/-- Modelled from the spec: `resolve(handle) -> object-or-NotFound`; an
invalid, unknown or already-released handle gives the not-found outcome
(section 4.4). The bridge implementation is not among the sources. -/
def resolve (h : Handle) (reg : Registry) : Resolution :=
  match reg.slot h with
  | some x => Resolution.object x
  | none => Resolution.NotFound

/-- Modelled from the spec: `release(handle)` drops ownership and invalidates
the handle permanently; on a recognizer that is not in `Idle`/`Disabled` it
fails with "busy" (section 4.4); a handle that is not a previously issued,
unreleased one yields the invalid-handle status (section 6). The bridge
implementation is not among the sources. -/
def release (h : Handle) (reg : Registry) : Status × Registry :=
  match reg.slot h with
  | none => (Status.InvalidHandle, reg)
  | some x =>
      if x.busy then (Status.Busy, reg)
      else (Status.OK, { next := reg.next, slots := reg.slots.filter (fun e => e.1 != h) })

/-- A call a C caller makes on the registry. -/
inductive BridgeCall where
  | register (x : RegisteredObject)
  | resolve (h : Handle)
  | release (h : Handle)
  deriving DecidableEq

/-- The registry after one call. -/
def Registry.after (reg : Registry) : BridgeCall → Registry
  | .register x => (register x reg).2
  | .resolve _ => reg
  | .release h => (release h reg).2

/-- The registry after a sequence of calls, first call first. -/
def Registry.afterAll (reg : Registry) : List BridgeCall → Registry
  | [] => reg
  | c :: cs => (reg.after c).afterAll cs

/-- Every live slot carries a handle that was already issued. -/
def Registry.Issued (reg : Registry) : Prop :=
  ∀ e ∈ reg.slots, e.1 < reg.next

end Bridge

/-! ## Lemmas on the recognizer -/

namespace Intent

/-- Every dispatched call throws `nullptr` and hands the object back as it was. -/
theorem invoke_perform (c : Call) (r : IntentRecognizer) :
    invoke (perform c) r = (Except.error Thrown.nullptr, r) := by
  cases c <;> rfl

/-- A sequence of calls leaves the object as it was. -/
theorem runCalls_object (calls : List Call) (r : IntentRecognizer) :
    (runCalls calls r).2 = r := by
  induction calls generalizing r with
  | nil => rfl
  | cons c cs ih =>
      simp only [runCalls, invoke_perform]
      exact ih r

/-- After any number of the calls of a sequence the object is as it was. -/
theorem runCalls_take_object (calls : List Call) (k : Nat) (r : IntentRecognizer) :
    (runCalls (calls.take k) r).2 = r :=
  runCalls_object (calls.take k) r

/-- Every call of a sequence throws `nullptr`. -/
theorem runCalls_thrown (calls : List Call) (r : IntentRecognizer) :
    (runCalls calls r).1 = List.replicate calls.length (some Thrown.nullptr) := by
  induction calls generalizing r with
  | nil => rfl
  | cons c cs ih =>
      simp only [runCalls, invoke_perform, thrownValue, List.length_cons, List.replicate_succ]
      rw [ih r]

/-- Construction never yields an object. -/
theorem construct_not_ok
    (baseCtor : MemberRef RecognizerParameters → Except Thrown AsyncRecognizer) (r : IntentRecognizer) :
    IntentRecognizer.construct baseCtor ≠ Except.ok r := by
  unfold IntentRecognizer.construct
  cases h : baseCtor none with
  | error e => simp [h, bind, Except.bind]
  | ok b => simp [h, bind, Except.bind, throw, throwThe, MonadExceptOf.throw]

end Intent

/-! ## Claims on `IntentRecognizer` -/

namespace Intent

/-- C9: each of the six overrides (`IsEnabled`, `Enable`, `Disable`,
`RecognizeAsync`, `StartContinuousRecognitionAsync`,
`StopContinuousRecognitionAsync`) is a `throw nullptr` placeholder: on every
recognizer object it throws `nullptr`, returns no value and leaves the object
as it was. -/
theorem overrides_throw_nullptr (r : IntentRecognizer) :
    invoke IntentRecognizer.IsEnabled r = (Except.error Thrown.nullptr, r) ∧
    invoke IntentRecognizer.Enable r = (Except.error Thrown.nullptr, r) ∧
    invoke IntentRecognizer.Disable r = (Except.error Thrown.nullptr, r) ∧
    invoke IntentRecognizer.RecognizeAsync r = (Except.error Thrown.nullptr, r) ∧
    invoke IntentRecognizer.StartContinuousRecognitionAsync r
      = (Except.error Thrown.nullptr, r) ∧
    invoke IntentRecognizer.StopContinuousRecognitionAsync r
      = (Except.error Thrown.nullptr, r) :=
  ⟨rfl, rfl, rfl, rfl, rfl, rfl⟩

/-- C10: constructing an `IntentRecognizer` always fails. Whatever the base
constructor does, the construction yields no object; when the base constructor
succeeds the body is reached and throws `nullptr`; and a caller who constructs
and then makes any calls never holds an object. -/
theorem construct_always_throws
    (baseCtor : MemberRef RecognizerParameters → Except Thrown AsyncRecognizer) :
    (∀ r, IntentRecognizer.construct baseCtor ≠ Except.ok r) ∧
    returned (IntentRecognizer.construct baseCtor) = false ∧
    (∀ b, baseCtor none = Except.ok b →
      IntentRecognizer.construct baseCtor = Except.error Thrown.nullptr) ∧
    (∀ calls, afterConstruction baseCtor calls = none) := by
  have hno := construct_not_ok baseCtor
  refine ⟨hno, ?_, ?_, ?_⟩
  · cases h : IntentRecognizer.construct baseCtor with
    | error e => rfl
    | ok r => exact absurd h (hno r)
  · intro b hb
    simp only [IntentRecognizer.construct, hb]
    rfl
  · intro calls
    unfold afterConstruction
    cases h : IntentRecognizer.construct baseCtor with
    | error e => rfl
    | ok r => exact absurd h (hno r)

/-- C10, at a base constructor that succeeds and leaves the state `Disabled`:
the body throws `nullptr`. -/
theorem construct_always_throws_witness :
    baseCtorDisabled none
        = Except.ok { state := LifecycleState.Disabled } ∧
      IntentRecognizer.construct baseCtorDisabled = Except.error Thrown.nullptr :=
  ⟨rfl, (construct_always_throws baseCtorDisabled).2.2.1 _ rfl⟩

/-- C1, as stated, fails: on a `Disabled` recognizer `Enable()` throws
`nullptr`, so it does fail, and the state afterwards is `Disabled`, not
`Idle`. -/
theorem enable_from_disabled_counterexample :
    invoke IntentRecognizer.Enable (recognizerIn LifecycleState.Disabled)
        = (Except.error Thrown.nullptr, recognizerIn LifecycleState.Disabled) ∧
      returned (invoke IntentRecognizer.Enable (recognizerIn LifecycleState.Disabled)).1
        = false ∧
      (invoke IntentRecognizer.Enable (recognizerIn LifecycleState.Disabled)).2.state
        ≠ LifecycleState.Idle := by
  refine ⟨rfl, rfl, ?_⟩
  decide

/-- C1, amended: for every recognizer state, `Enable()` throws the placeholder
`nullptr` and leaves the state unchanged; from `Disabled` the recognizer stays
`Disabled`, and when it is already enabled the state is unchanged as well. -/
theorem enable_throws_and_keeps_state (r : IntentRecognizer) :
    (invoke IntentRecognizer.Enable r).1 = Except.error Thrown.nullptr ∧
    (invoke IntentRecognizer.Enable r).2 = r ∧
    (invoke IntentRecognizer.Enable r).2.state = r.state :=
  ⟨rfl, rfl, rfl⟩

/-- C2, as stated, fails: on an `Idle` recognizer `IsEnabled()` does not return
`true`; it throws `nullptr`. -/
theorem isEnabled_idle_counterexample :
    (invoke IntentRecognizer.IsEnabled (recognizerIn LifecycleState.Idle)).1
        ≠ Except.ok true ∧
      returned (invoke IntentRecognizer.IsEnabled (recognizerIn LifecycleState.Idle)).1
        = false := by
  refine ⟨?_, rfl⟩
  intro h
  cases h

/-- C2, amended: for every recognizer state, `IsEnabled()` leaves the state
unchanged but returns no boolean: it throws the placeholder `nullptr`. -/
theorem isEnabled_throws_and_keeps_state (r : IntentRecognizer) :
    (invoke IntentRecognizer.IsEnabled r).2 = r ∧
    (invoke IntentRecognizer.IsEnabled r).1 = Except.error Thrown.nullptr ∧
    ∀ b : Bool, (invoke IntentRecognizer.IsEnabled r).1 ≠ Except.ok b := by
  refine ⟨rfl, rfl, ?_⟩
  intro b h
  cases h

/-- C3, as stated, fails: from `Idle`, `Disable()` does not succeed and the
state stays `Idle` instead of becoming `Disabled`; and from `Recognizing` what
it throws is `nullptr`, neither `InvalidState` nor `Busy`. -/
theorem disable_counterexample :
    returned (invoke IntentRecognizer.Disable (recognizerIn LifecycleState.Idle)).1 = false ∧
      (invoke IntentRecognizer.Disable (recognizerIn LifecycleState.Idle)).2.state
        ≠ LifecycleState.Disabled ∧
      thrownValue (invoke IntentRecognizer.Disable (recognizerIn LifecycleState.Recognizing)).1
        ≠ some (Thrown.failure ErrorKind.InvalidState) ∧
      thrownValue (invoke IntentRecognizer.Disable (recognizerIn LifecycleState.Recognizing)).1
        ≠ some (Thrown.failure ErrorKind.Busy) := by
  refine ⟨rfl, ?_, ?_, ?_⟩ <;> decide

/-- C3, amended: for every recognizer whose state is `Recognizing`,
`ContinuousActive`, `Stopping` or `Idle`, `Disable()` fails by throwing the
placeholder `nullptr` and the state after the call equals the state before
it. -/
theorem disable_throws_and_keeps_state (r : IntentRecognizer)
    (h : r.state = LifecycleState.Recognizing ∨ r.state = LifecycleState.ContinuousActive ∨
      r.state = LifecycleState.Stopping ∨ r.state = LifecycleState.Idle) :
    (invoke IntentRecognizer.Disable r).1 = Except.error Thrown.nullptr ∧
    (invoke IntentRecognizer.Disable r).2.state = r.state ∧
    ((invoke IntentRecognizer.Disable r).2.state = LifecycleState.Recognizing ∨
      (invoke IntentRecognizer.Disable r).2.state = LifecycleState.ContinuousActive ∨
      (invoke IntentRecognizer.Disable r).2.state = LifecycleState.Stopping ∨
      (invoke IntentRecognizer.Disable r).2.state = LifecycleState.Idle) :=
  ⟨rfl, rfl, h⟩

/-- C3, amended, on a recognizer with a continuous session running. -/
theorem disable_throws_and_keeps_state_witness :
    (invoke IntentRecognizer.Disable (recognizerIn LifecycleState.ContinuousActive)).1
        = Except.error Thrown.nullptr ∧
      (invoke IntentRecognizer.Disable (recognizerIn LifecycleState.ContinuousActive)).2.state
        = LifecycleState.ContinuousActive :=
  ⟨(disable_throws_and_keeps_state (recognizerIn LifecycleState.ContinuousActive)
      (Or.inr (Or.inl rfl))).1,
   (disable_throws_and_keeps_state (recognizerIn LifecycleState.ContinuousActive)
      (Or.inr (Or.inl rfl))).2.1⟩

/-- C4, as stated, fails: on an `Idle` recognizer, which has no continuous
session, `StopContinuousRecognitionAsync()` does not resolve successfully: it
returns no future and throws `nullptr`. -/
theorem stop_without_session_counterexample :
    returned
        (invoke IntentRecognizer.StopContinuousRecognitionAsync
          (recognizerIn LifecycleState.Idle)).1 = false ∧
      thrownValue
        (invoke IntentRecognizer.StopContinuousRecognitionAsync
          (recognizerIn LifecycleState.Idle)).1 = some Thrown.nullptr :=
  ⟨rfl, rfl⟩

/-- C4, amended: for every recognizer with no active continuous session,
`StopContinuousRecognitionAsync()` leaves the state unchanged, so calling it
twice in a row leaves the same state and reports the same outcome as calling it
once; but it does not resolve successfully: each call throws the placeholder
`nullptr`. -/
theorem stop_without_session_keeps_state (r : IntentRecognizer)
    (h : r.state ≠ LifecycleState.ContinuousActive) :
    (invoke IntentRecognizer.StopContinuousRecognitionAsync r).1
      = Except.error Thrown.nullptr ∧
    (invoke IntentRecognizer.StopContinuousRecognitionAsync r).2 = r ∧
    (invoke IntentRecognizer.StopContinuousRecognitionAsync r).2.state
      ≠ LifecycleState.ContinuousActive ∧
    invoke IntentRecognizer.StopContinuousRecognitionAsync
        (invoke IntentRecognizer.StopContinuousRecognitionAsync r).2
      = invoke IntentRecognizer.StopContinuousRecognitionAsync r :=
  ⟨rfl, rfl, h, rfl⟩

/-- C4, amended, on an `Idle` recognizer. -/
theorem stop_without_session_keeps_state_witness :
    (recognizerIn LifecycleState.Idle).state ≠ LifecycleState.ContinuousActive ∧
      (invoke IntentRecognizer.StopContinuousRecognitionAsync
          (recognizerIn LifecycleState.Idle)).2 = recognizerIn LifecycleState.Idle ∧
      invoke IntentRecognizer.StopContinuousRecognitionAsync
          (invoke IntentRecognizer.StopContinuousRecognitionAsync
            (recognizerIn LifecycleState.Idle)).2
        = invoke IntentRecognizer.StopContinuousRecognitionAsync
            (recognizerIn LifecycleState.Idle) :=
  ⟨by decide,
   (stop_without_session_keeps_state (recognizerIn LifecycleState.Idle) (by decide)).2.1,
   (stop_without_session_keeps_state (recognizerIn LifecycleState.Idle) (by decide)).2.2.2⟩

/-- C5, as stated, fails: with a base constructor that succeeds, construction
yields no recognizer; and on a `Disabled` recognizer object every call of the
scenario throws `nullptr`, the first `Enable()` and the first
`RecognizeAsync()` included, and the state stays `Disabled`. -/
theorem single_shot_scenario_counterexample :
    afterConstruction baseCtorDisabled singleShotScenario = none ∧
      runCalls singleShotScenario (recognizerIn LifecycleState.Disabled)
        = ([some Thrown.nullptr, some Thrown.nullptr, some Thrown.nullptr,
            some Thrown.nullptr], recognizerIn LifecycleState.Disabled) :=
  ⟨rfl, rfl⟩

/-- C5, amended: single-shot scenario. Constructing an `IntentRecognizer`
throws, so the scenario has no newly created recognizer to run on; on any
recognizer object, `Enable()`, `RecognizeAsync()`, `Disable()` and the
following `RecognizeAsync()` each throw the placeholder `nullptr` (no result
is yielded and the last failure is not `InvalidState`), and the state
throughout is the state at the start: after `Enable()`, after the first
`RecognizeAsync()`, after `Disable()` and after the last `RecognizeAsync()`,
and indeed after any number of the calls, the object is the object the
scenario started on. -/
theorem single_shot_scenario_throws
    (baseCtor : MemberRef RecognizerParameters → Except Thrown AsyncRecognizer)
    (r : IntentRecognizer) :
    afterConstruction baseCtor singleShotScenario = none ∧
    (runCalls singleShotScenario r).1
      = [some Thrown.nullptr, some Thrown.nullptr, some Thrown.nullptr, some Thrown.nullptr] ∧
    (runCalls [Call.Enable] r).2.state = r.state ∧
    (runCalls [Call.Enable, Call.RecognizeAsync] r).2.state = r.state ∧
    (runCalls [Call.Enable, Call.RecognizeAsync, Call.Disable] r).2.state = r.state ∧
    (runCalls singleShotScenario r).2.state = r.state ∧
    (∀ k, (runCalls (singleShotScenario.take k) r).2 = r) ∧
    (runCalls singleShotScenario r).2 = r := by
  refine ⟨?_, runCalls_thrown singleShotScenario r, ?_, ?_, ?_, ?_,
    fun k => runCalls_take_object singleShotScenario k r,
    runCalls_object singleShotScenario r⟩
  · unfold afterConstruction
    cases h : IntentRecognizer.construct baseCtor with
    | error e => rfl
    | ok r0 => exact absurd h (construct_not_ok baseCtor r0)
  · rw [runCalls_object]
  · rw [runCalls_object]
  · rw [runCalls_object]
  · rw [runCalls_object]

/-- C6, as stated, fails: on a `Disabled` recognizer object every call of the
scenario throws `nullptr`: `Enable()` and `StartContinuousRecognitionAsync()`
do not succeed, the state never becomes `ContinuousActive`, and the closing
`Disable()` does not succeed either. -/
theorem continuous_scenario_counterexample :
    runCalls continuousScenario (recognizerIn LifecycleState.Disabled)
        = ([some Thrown.nullptr, some Thrown.nullptr, some Thrown.nullptr,
            some Thrown.nullptr, some Thrown.nullptr],
           recognizerIn LifecycleState.Disabled) ∧
      (runCalls [Call.Enable, Call.StartContinuousRecognitionAsync]
          (recognizerIn LifecycleState.Disabled)).2.state
        ≠ LifecycleState.ContinuousActive := by
  refine ⟨rfl, ?_⟩
  decide

/-- C6, amended: continuous scenario. On any recognizer object, `Enable()`,
`StartContinuousRecognitionAsync()`, `Disable()`,
`StopContinuousRecognitionAsync()` and the following `Disable()` each throw
the placeholder `nullptr` (so the middle `Disable()` does fail, though not with
`Busy`), and the state after the second call, after the fourth call and at
the close of the scenario is the state at the start; indeed after any number
of the calls the object is the object the scenario started on. -/
theorem continuous_scenario_throws (r : IntentRecognizer) :
    (runCalls continuousScenario r).1
      = [some Thrown.nullptr, some Thrown.nullptr, some Thrown.nullptr,
         some Thrown.nullptr, some Thrown.nullptr] ∧
    (runCalls (continuousScenario.take 2) r).2.state = r.state ∧
    (runCalls (continuousScenario.take 4) r).2.state = r.state ∧
    (runCalls continuousScenario r).2 = r ∧
    (∀ k, (runCalls (continuousScenario.take k) r).2 = r) := by
  refine ⟨runCalls_thrown continuousScenario r, ?_, ?_, runCalls_object continuousScenario r,
    fun k => runCalls_take_object continuousScenario k r⟩
  · rw [runCalls_object]
  · rw [runCalls_object]

end Intent

/-! ## Lemmas on the handle registry -/

namespace Bridge

/-- A handle that names no live slot has no slot. -/
theorem slot_eq_none (reg : Registry) (h : Handle)
    (hfree : ∀ e ∈ reg.slots, e.1 ≠ h) : reg.slot h = none := by
  unfold Registry.slot
  have hfind : reg.slots.find? (fun e => e.1 == h) = none := by
    rw [List.find?_eq_none]
    intro e he
    simpa using hfree e he
  rw [hfind]

/-- A handle that has a slot labels one of the live slots. -/
theorem slot_some_mem (reg : Registry) (h : Handle) (x : RegisteredObject)
    (hx : reg.slot h = some x) : (h, x) ∈ reg.slots := by
  unfold Registry.slot at hx
  cases hfind : reg.slots.find? (fun e => e.1 == h) with
  | none => rw [hfind] at hx; cases hx
  | some e =>
      rw [hfind] at hx
      have hmem := List.mem_of_find?_eq_some hfind
      have hkey := List.find?_some hfind
      have h1 : e.1 = h := by simpa using hkey
      have h2 : e.2 = x := by simpa using hx
      have he : e = (h, x) := by rw [← h1, ← h2]
      rw [← he]
      exact hmem

/-- The registry after `release`: unchanged, or the slots of the released
handle filtered out; the next token is never touched. -/
theorem release_registry (h : Handle) (reg : Registry) :
    (release h reg).2 = reg ∨
    (release h reg).2
      = { next := reg.next, slots := reg.slots.filter (fun e => e.1 != h) } := by
  unfold release
  cases reg.slot h with
  | none => exact Or.inl rfl
  | some x =>
      cases hb : x.busy with
      | true => exact Or.inl (by simp [hb])
      | false => exact Or.inr (by simp [hb])

/-- Every call keeps the live slots labelled by issued handles. -/
theorem issued_after (reg : Registry) (c : BridgeCall) (hreg : reg.Issued) :
    (reg.after c).Issued := by
  cases c with
  | register x =>
      intro e he
      simp only [Registry.after, register, List.mem_cons] at he ⊢
      rcases he with he | he
      · rw [he]; exact Nat.lt_succ_self _
      · exact Nat.lt_succ_of_lt (hreg e he)
  | resolve k => exact hreg
  | release k =>
      simp only [Registry.after]
      rcases release_registry k reg with hrel | hrel
      · rw [hrel]; exact hreg
      · rw [hrel]
        intro e he
        exact hreg e (List.mem_of_mem_filter he)

/-- Every registry reached from the initial one has its live slots labelled by
issued handles. -/
theorem issued_afterAll (reg : Registry) (calls : List BridgeCall) (hreg : reg.Issued) :
    (reg.afterAll calls).Issued := by
  induction calls generalizing reg with
  | nil => exact hreg
  | cons c cs ih => exact ih (reg.after c) (issued_after reg c hreg)

/-- The initial registry has no live slot. -/
theorem issued_initial : Registry.initial.Issued := by
  intro e he
  cases he

/-- An issued handle without a live slot stays so after any call: tokens are
issued monotonically, so `register` never hands it out again. -/
theorem gone_after (reg : Registry) (h : Handle) (c : BridgeCall)
    (hlt : h < reg.next) (hfree : ∀ e ∈ reg.slots, e.1 ≠ h) :
    h < (reg.after c).next ∧ ∀ e ∈ (reg.after c).slots, e.1 ≠ h := by
  cases c with
  | register x =>
      refine ⟨Nat.lt_succ_of_lt hlt, ?_⟩
      intro e he
      simp only [Registry.after, register, List.mem_cons] at he
      rcases he with he | he
      · rw [he]; exact Nat.ne_of_gt hlt
      · exact hfree e he
  | resolve k => exact ⟨hlt, hfree⟩
  | release k =>
      simp only [Registry.after]
      rcases release_registry k reg with hrel | hrel
      · rw [hrel]; exact ⟨hlt, hfree⟩
      · rw [hrel]
        exact ⟨hlt, fun e he => hfree e (List.mem_of_mem_filter he)⟩

/-- An issued handle without a live slot stays so after any sequence of calls. -/
theorem gone_afterAll (reg : Registry) (h : Handle) (calls : List BridgeCall)
    (hlt : h < reg.next) (hfree : ∀ e ∈ reg.slots, e.1 ≠ h) :
    ∀ e ∈ (reg.afterAll calls).slots, e.1 ≠ h := by
  induction calls generalizing reg with
  | nil => exact hfree
  | cons c cs ih =>
      have hstep := gone_after reg h c hlt hfree
      exact ih (reg.after c) hstep.1 hstep.2

/-- A release that reports `OK` was of an issued handle and leaves it without
a live slot. -/
theorem release_ok (reg : Registry) (h : Handle) (hreg : reg.Issued)
    (hok : (release h reg).1 = Status.OK) :
    h < (release h reg).2.next ∧ ∀ e ∈ (release h reg).2.slots, e.1 ≠ h := by
  cases hs : reg.slot h with
  | none => simp [release, hs] at hok
  | some x =>
      cases hb : x.busy with
      | true => simp [release, hs, hb] at hok
      | false =>
          have hreleased : (release h reg).2
              = { next := reg.next, slots := reg.slots.filter (fun e => e.1 != h) } := by
            simp [release, hs, hb]
          rw [hreleased]
          refine ⟨hreg (h, x) (slot_some_mem reg h x hs), ?_⟩
          intro e he
          have hkey := (List.mem_filter.mp he).2
          simpa using hkey

end Bridge

/-! ## Claim on the handle registry -/

namespace Bridge

/-- C8: handle round trip. In every registry, resolving the handle that
`register x` just issued gives an object equal to `x`, and releasing that
handle reports `OK` unless `x` is a busy recognizer; and in every registry
reached from the initial one, once `release h` has released the handle (it
reported `OK`), `resolve h` gives `NotFound` after any further sequence of
register, resolve and release calls. -/
theorem handle_round_trip :
    (∀ (reg : Registry) (x : RegisteredObject),
      resolve (register x reg).1 (register x reg).2 = Resolution.object x) ∧
    (∀ (reg : Registry) (x : RegisteredObject), x.busy = false →
      (release (register x reg).1 (register x reg).2).1 = Status.OK) ∧
    (∀ (before later : List BridgeCall) (h : Handle),
      (release h (Registry.initial.afterAll before)).1 = Status.OK →
      resolve h ((release h (Registry.initial.afterAll before)).2.afterAll later)
        = Resolution.NotFound) := by
  refine ⟨?_, ?_, ?_⟩
  · intro reg x
    simp [resolve, register, Registry.slot]
  · intro reg x hx
    simp [release, register, Registry.slot, hx]
  · intro before later h hok
    have hissued := issued_afterAll Registry.initial before issued_initial
    have hrel := release_ok (Registry.initial.afterAll before) h hissued hok
    have hgone := gone_afterAll _ h later hrel.1 hrel.2
    unfold resolve
    rw [slot_eq_none _ h hgone]

/-- C8, on a registry that issued handles 0 and 1: a result registered next
gets a handle whose release reports `OK`; and after handle 0 is released,
another object is registered and handle 0 is released again, resolving handle
0 gives `NotFound`. -/
theorem handle_round_trip_witness :
    ((RegisteredObject.result 5).busy = false ∧
      (release
        (register (RegisteredObject.result 5) (Registry.initial.afterAll
          [BridgeCall.register (RegisteredObject.result 7),
           BridgeCall.register (RegisteredObject.result 8)])).1
        (register (RegisteredObject.result 5) (Registry.initial.afterAll
          [BridgeCall.register (RegisteredObject.result 7),
           BridgeCall.register (RegisteredObject.result 8)])).2).1 = Status.OK) ∧
    ((release 0 (Registry.initial.afterAll
        [BridgeCall.register (RegisteredObject.result 7),
         BridgeCall.register (RegisteredObject.result 8)])).1 = Status.OK ∧
      resolve 0
        ((release 0 (Registry.initial.afterAll
          [BridgeCall.register (RegisteredObject.result 7),
           BridgeCall.register (RegisteredObject.result 8)])).2.afterAll
          [BridgeCall.register (RegisteredObject.result 9), BridgeCall.release 0])
        = Resolution.NotFound) :=
  ⟨⟨rfl, handle_round_trip.2.1 _ (RegisteredObject.result 5) rfl⟩,
   ⟨by decide,
    handle_round_trip.2.2
      [BridgeCall.register (RegisteredObject.result 7),
       BridgeCall.register (RegisteredObject.result 8)]
      [BridgeCall.register (RegisteredObject.result 9), BridgeCall.release 0] 0 (by decide)⟩⟩

end Bridge
